import Mathlib

/-!
Shallow embedding of the Manufacture-KPI-Dashboard application (`app.py`) and
verification of its specification claims.

Modelling conventions:
* numeric dataframe columns (`downtime_min`, `downtime_total_min`, `downtime_rate`,
  `duration_min`, `actual_run_min`, `run_ratio`) are rationals (`ℚ`);
* timestamps are integers (`Int`), a nullable pandas column is an `Option`;
  pandas comparisons against a null (`NaT`/`NA`) yield `False`, and `Series.mean`,
  `Series.nunique`, dataframe group keys follow pandas semantics as noted inline;
* filesystem paths for the root locator are lists of components stored leaf-first
  (`/a/b` is `["b", "a"]`), so `Path.parent` is `List.tail` and the filesystem
  root is `[]`.
-/

/-- A cell of a raw parquet column before normalisation: either a value that
parses, or one that `pd.to_datetime(..., errors="coerce")` /
`pd.to_numeric(..., errors="coerce")` turns into a null. -/
inductive Raw (α : Type) where
  | val : α → Raw α
  | bad : Raw α
deriving DecidableEq

/-- The null-coercing normalisation applied by `load_data`. -/
def Raw.coerce {α : Type} : Raw α → Option α
  | .val a => some a
  | .bad => none

/-- One row of `fact_batches.parquet` after `load_data` normalisation
(`Date` coerced to a nullable timestamp, `Batch` to a nullable integer). -/
structure BatchRow where
  date : Option Int
  batch : Option Int
  product : Option String
  operator : Option String
  duration_min : ℚ
  actual_run_min : ℚ
  downtime_total_min : ℚ
  downtime_rate : ℚ
  run_ratio : ℚ
deriving DecidableEq

/-- One row of `fact_downtime_long.parquet` after normalisation.  Group keys in
pandas `groupby` are non-null, so `Description` is modelled as a plain string. -/
structure DtRow where
  batch : Option Int
  description : String
  downtime_min : ℚ
deriving DecidableEq

/-- One row of `dt_join = dt_long.merge(df[["Batch","Date","Product","Operator"]],
on="Batch", how="left")`: a downtime event with the joined batch metadata,
null when the event's batch has no matching batch record. -/
structure JoinedRow where
  batch : Option Int
  description : String
  downtime_min : ℚ
  date : Option Int
  product : Option String
  operator : Option String
deriving DecidableEq

/-- A raw `fact_batches.parquet` row before type normalisation. -/
structure RawBatchRow where
  date : Raw Int
  batch : Raw Int
  product : Option String
  operator : Option String
  duration_min : ℚ
  actual_run_min : ℚ
  downtime_total_min : ℚ
  downtime_rate : ℚ
  run_ratio : ℚ
deriving DecidableEq

/-- A raw `fact_downtime_long.parquet` row before type normalisation. -/
structure RawDtRow where
  batch : Raw Int
  description : String
  downtime_min : ℚ
deriving DecidableEq

/-- Normalisation of a batch row performed by `load_data`:
`df["Date"] = pd.to_datetime(df["Date"], errors="coerce")` and
`df["Batch"] = pd.to_numeric(df["Batch"], errors="coerce").astype("Int64")`. -/
def normalizeBatch (r : RawBatchRow) : BatchRow :=
  ⟨r.date.coerce, r.batch.coerce, r.product, r.operator, r.duration_min,
   r.actual_run_min, r.downtime_total_min, r.downtime_rate, r.run_ratio⟩

/-- Normalisation of a downtime row performed by `load_data`:
`dt_long["Batch"] = pd.to_numeric(dt_long["Batch"], errors="coerce").astype("Int64")`. -/
def normalizeDt (r : RawDtRow) : DtRow :=
  ⟨r.batch.coerce, r.description, r.downtime_min⟩

/-- The state of `<root>/data_processed/`: each field is `some` table when the
corresponding parquet file exists, `none` when it is absent. -/
structure FS where
  batches : Option (List RawBatchRow)
  downtime : Option (List RawDtRow)

/-- The error class raised by `pd.read_parquet` on a missing file
(`FileNotFoundError`), caught in `main`. -/
inductive LoadErr where
  | fileNotFound
deriving DecidableEq

/-- `load_data`: read the two parquet files (batches first, as in the source),
failing with `FileNotFoundError` if either is absent, then normalise types. -/
def load_data (fs : FS) : Except LoadErr (List BatchRow × List DtRow) :=
  match fs.batches with
  | none => .error .fileNotFound
  | some rawDf => match fs.downtime with
    | none => .error .fileNotFound
    | some rawDt => .ok (rawDf.map normalizeBatch, rawDt.map normalizeDt)

def batchesFile : String := "data_processed/fact_batches.parquet"

def downtimeFile : String := "data_processed/fact_downtime_long.parquet"

def nl : String := "\n"

/-- The lines of the `st.error` message shown when loading fails. -/
def errLines : List String :=
  ["Parquet files not found:",
   "- data_processed/fact_batches.parquet",
   "- data_processed/fact_downtime_long.parquet"]

/-- The `st.error` message of `main`'s `except FileNotFoundError` branch. -/
def errNotFoundMsg : String := String.intercalate nl errLines

/-- Outcome of the loading section of `main`: either the interaction halts
gracefully with a user-visible error message (`st.error` + `st.stop`), or the
two tables are loaded and execution continues. -/
inductive LoadOutcome where
  | halted : String → LoadOutcome
  | loaded : List BatchRow → List DtRow → LoadOutcome
deriving DecidableEq

/-- The `try: load_data ... except FileNotFoundError: st.error(...); st.stop()`
block of `main`. -/
def mainLoad (fs : FS) : LoadOutcome :=
  match load_data fs with
  | .error .fileNotFound => .halted errNotFoundMsg
  | .ok (df, dtLong) => .loaded df dtLong

/-- The left join of one downtime event against the batch table
(`merge(..., on="Batch", how="left")`): every matching batch row contributes a
joined row; an unmatched event yields a single row with null joined fields.
Pandas `merge` matches null keys to null keys, hence plain `Option` equality. -/
def joinRows (df : List BatchRow) (e : DtRow) : List JoinedRow :=
  let ms := df.filter (fun b => b.batch == e.batch)
  if ms.isEmpty then
    [⟨e.batch, e.description, e.downtime_min, none, none, none⟩]
  else
    ms.map (fun b => ⟨e.batch, e.description, e.downtime_min, b.date, b.product, b.operator⟩)

/-- `dt_join`: the Joined Downtime View. -/
def dtJoin (dtLong : List DtRow) (df : List BatchRow) : List JoinedRow :=
  dtLong.flatMap (joinRows df)

def dataProcessedDir : String := "data_processed"

def dataRawDir : String := "data_raw"

/-- `(root / "data_processed").exists() or (root / "data_raw").exists()`, where
`fs p d` tells whether directory `p` (leaf-first components) contains a folder
named `d`. -/
def hasDataDir (fs : List String → String → Bool) (p : List String) : Bool :=
  fs p dataProcessedDir || fs p dataRawDir

/-- The `while root != root.parent` loop of `find_project_root`: paths are
leaf-first component lists, the filesystem root is `[]` (its parent is itself,
so the loop exits without examining it) and `parent` drops the head. -/
def findRootGo (fs : List String → String → Bool) (cwd : List String) :
    List String → List String
  | [] => cwd
  | c :: rest => if hasDataDir fs (c :: rest) then c :: rest else findRootGo fs cwd rest

/-- `find_project_root`: walk upward from the current working directory. -/
def find_project_root (fs : List String → String → Bool) (cwd : List String) :
    List String :=
  findRootGo fs cwd cwd

/-- The proper-ancestor chain examined by the walk, from the starting directory
itself up to (but excluding) the filesystem root. -/
def ancestorsBelowRoot : List String → List (List String)
  | [] => []
  | c :: rest => (c :: rest) :: ancestorsBelowRoot rest

/-- Modelled from the spec's words (root locator contract): the first ancestor,
starting from the working directory itself and stopping when the filesystem
root is reached, that contains a processed- or raw-data folder; the original
working directory when none matches. -/
def find_project_root_spec (fs : List String → String → Bool)
    (cwd : List String) : List String :=
  ((ancestorsBelowRoot cwd).find? (fun p => hasDataDir fs p)).getD cwd

def allSentinel : String := "All"

/-- Pandas semantics of `df["Date"] >= start` / `<= end` on a nullable column:
a null date compares `False`. -/
def dateInRange (sd ed : Int) : Option Int → Bool
  | some d => decide (sd ≤ d) && decide (d ≤ ed)
  | none => false

/-- The mask built over `df` at lines 130-134 of `app.py`:
date-range conjunct, then `mask &= df["Product"] == selected_product` unless the
selection is `"All"`, then the same for the operator.  A null `Product`/`Operator`
compares unequal to any selected string. -/
def batchMask (sd ed : Int) (selP selO : String) (r : BatchRow) : Bool :=
  let m1 := dateInRange sd ed r.date
  let m2 := if selP ≠ allSentinel then m1 && (r.product == some selP) else m1
  if selO ≠ allSentinel then m2 && (r.operator == some selO) else m2

/-- The mask built over `dt_join` at lines 138-142 of `app.py`. -/
def joinedMask (sd ed : Int) (selP selO : String) (j : JoinedRow) : Bool :=
  let m1 := dateInRange sd ed j.date
  let m2 := if selP ≠ allSentinel then m1 && (j.product == some selP) else m1
  if selO ≠ allSentinel then m2 && (j.operator == some selO) else m2

/-- `dff = df.loc[mask]`. -/
def filterBatch (df : List BatchRow) (sd ed : Int) (selP selO : String) :
    List BatchRow :=
  df.filter (batchMask sd ed selP selO)

/-- `dtf = dt_join.loc[mask_dt]`. -/
def filterJoined (dtj : List JoinedRow) (sd ed : Int) (selP selO : String) :
    List JoinedRow :=
  dtj.filter (joinedMask sd ed selP selO)

/-- Modelled from the spec's words: `date ∈ [start, end]` for a nullable date. -/
def specDate (sd ed : Int) (o : Option Int) : Prop :=
  ∃ d, o = some d ∧ sd ≤ d ∧ d ≤ ed

instance specDateDec (sd ed : Int) : (o : Option Int) → Decidable (specDate sd ed o)
  | none => isFalse (by rintro ⟨d, hd, -⟩; cases hd)
  | some d => decidable_of_iff (sd ≤ d ∧ d ≤ ed)
      ⟨fun h => ⟨d, rfl, h.1, h.2⟩, by rintro ⟨d', hd, h1, h2⟩; cases hd; exact ⟨h1, h2⟩⟩

/-- Modelled from the spec's words: `value == selected ∨ selected == All`. -/
def specSel (sel : String) (v : Option String) : Prop :=
  sel = allSentinel ∨ v = some sel

instance specSelDec (sel : String) (v : Option String) : Decidable (specSel sel v) :=
  inferInstanceAs (Decidable (_ ∨ _))

/-- Modelled from the spec's words (filter-engine contract): the selection
predicate `date ∈ [start, end] ∧ (product == selected ∨ selected == All) ∧
(operator == selected ∨ selected == All)` on a Batch Record. -/
def specPredBatch (sd ed : Int) (selP selO : String) (r : BatchRow) : Prop :=
  specDate sd ed r.date ∧ specSel selP r.product ∧ specSel selO r.operator

/-- Modelled from the spec's words: the same selection predicate on a row of
the Joined Downtime View. -/
def specPredJoined (sd ed : Int) (selP selO : String) (j : JoinedRow) : Prop :=
  specDate sd ed j.date ∧ specSel selP j.product ∧ specSel selO j.operator

instance specPredBatchDec (sd ed : Int) (selP selO : String) (r : BatchRow) :
    Decidable (specPredBatch sd ed selP selO r) :=
  inferInstanceAs
    (Decidable (specDate sd ed r.date ∧ specSel selP r.product ∧ specSel selO r.operator))

instance specPredJoinedDec (sd ed : Int) (selP selO : String) (j : JoinedRow) :
    Decidable (specPredJoined sd ed selP selO j) :=
  inferInstanceAs
    (Decidable (specDate sd ed j.date ∧ specSel selP j.product ∧ specSel selO j.operator))

/-- The ordering used by `sort_values(..., ascending=False)` on a numeric key:
`a` may precede `b` when `a`'s key is at least `b`'s. -/
def descRel {α : Type} (f : α → ℚ) (a b : α) : Prop := f b ≤ f a

instance descRelDec {α : Type} (f : α → ℚ) : DecidableRel (descRel f) :=
  fun a b => inferInstanceAs (Decidable (f b ≤ f a))

instance descRelTotal {α : Type} (f : α → ℚ) : IsTotal α (descRel f) :=
  ⟨fun a b => le_total (f b) (f a)⟩

instance descRelTrans {α : Type} (f : α → ℚ) : IsTrans α (descRel f) :=
  ⟨fun _ _ _ h1 h2 => le_trans h2 h1⟩

/-- `sort_values(by=key, ascending=False)`. -/
def sortDescBy {α : Type} (f : α → ℚ) (l : List α) : List α :=
  List.insertionSort (descRel f) l

/-- `total_downtime = float(dff["downtime_total_min"].sum())`. -/
def total_downtime (dff : List BatchRow) : ℚ :=
  (dff.map (·.downtime_total_min)).sum

/-- Pandas `Series.mean` on a null-free numeric column: sum over count. -/
def listMean (l : List ℚ) : ℚ := l.sum / l.length

/-- `avg_downtime_rate = float(dff["downtime_rate"].mean())`. -/
def avg_downtime_rate (dff : List BatchRow) : ℚ :=
  listMean (dff.map (·.downtime_rate))

/-- `avg_run_ratio`: mean of the `run_ratio` column when the table has one,
else mean of `dff["actual_run_min"] / dff["duration_min"]`; `hasRR` models
`"run_ratio" in dff.columns`. -/
def avg_run_ratio (hasRR : Bool) (dff : List BatchRow) : ℚ :=
  if hasRR then listMean (dff.map (·.run_ratio))
  else listMean (dff.map (fun r => r.actual_run_min / r.duration_min))

/-- `total_batches = int(dff["Batch"].nunique())`: pandas `nunique` counts
distinct non-null values. -/
def total_batches (dff : List BatchRow) : Nat :=
  (dff.filterMap (·.batch)).dedup.length

/-- The distinct `Description` group keys of `dtf.groupby("Description")`. -/
def groupKeys (l : List JoinedRow) : List String :=
  (l.map (·.description)).dedup

/-- The summed `downtime_min` of one description group. -/
def sumFor (l : List JoinedRow) (k : String) : ℚ :=
  ((l.filter (fun r => r.description == k)).map (·.downtime_min)).sum

/-- `dtf.groupby("Description", as_index=False)["downtime_min"].sum()`. -/
def grouped (l : List JoinedRow) : List (String × ℚ) :=
  (groupKeys l).map (fun k => (k, sumFor l k))

/-- `reasons`: group by description, sum minutes, sort descending, `head(12)`. -/
def reasonAgg (l : List JoinedRow) : List (String × ℚ) :=
  (sortDescBy Prod.snd (grouped l)).take 12

/-- The fixed column subset selected for the worst-batches table, in source
order `["Date","Batch","Product","Operator","duration_min","downtime_total_min",
"downtime_rate","actual_run_min"]`. -/
structure WorstRow where
  date : Option Int
  batch : Option Int
  product : Option String
  operator : Option String
  duration_min : ℚ
  downtime_total_min : ℚ
  downtime_rate : ℚ
  actual_run_min : ℚ
deriving DecidableEq

/-- The `.loc[:, [...]]` column projection of the worst-batches table. -/
def projectWorst (r : BatchRow) : WorstRow :=
  ⟨r.date, r.batch, r.product, r.operator, r.duration_min,
   r.downtime_total_min, r.downtime_rate, r.actual_run_min⟩

/-- `worst = dff.sort_values("downtime_total_min", ascending=False).loc[:, cols].head(15)`. -/
def worstBatches (dff : List BatchRow) : List WorstRow :=
  ((sortDescBy (fun r => r.downtime_total_min) dff).map projectWorst).take 15

/-- One row of the daily rollup `daily`. -/
structure DailyRow where
  day : Int
  total_downtime : ℚ
  avg_downtime_rate : ℚ
  avg_duration : ℚ
deriving DecidableEq

/-- Ascending sort of the day keys (`groupby("day")` sorts keys ascending, and
the later `sort_values("day")` keeps them so). -/
def sortAscInt (l : List Int) : List Int :=
  List.insertionSort (fun a b => a ≤ b) l

/-- The rows of `dff` on a given day; `day` is the date truncated by
`.dt.date`, which on the integer day index is the date itself (null dates,
absent from any filtered view, would be dropped by `groupby`). -/
def dayRows (dff : List BatchRow) (d : Int) : List BatchRow :=
  dff.filter (fun r => r.date == some d)

/-- `daily`: group the filtered batches by day and aggregate. -/
def dailyRollup (dff : List BatchRow) : List DailyRow :=
  (sortAscInt (dff.filterMap (·.date)).dedup).map (fun d =>
    ⟨d, ((dayRows dff d).map (·.downtime_total_min)).sum,
     listMean ((dayRows dff d).map (·.downtime_rate)),
     listMean ((dayRows dff d).map (·.duration_min))⟩)

/-- `cumsum` with running accumulator: `d["downtime_min"].cumsum()`. -/
def cumsum : ℚ → List ℚ → List ℚ
  | _, [] => []
  | acc, x :: xs => (acc + x) :: cumsum (acc + x) xs

/-- The `cum_pct` column of `make_pareto`:
`d["downtime_min"].cumsum() / total if total else 0` — when the total is zero
(Python falsity of the float) every row gets the scalar `0`. -/
def cumFracs (mins : List ℚ) : List ℚ :=
  if mins.sum = 0 then mins.map (fun _ => (0 : ℚ))
  else (cumsum 0 mins).map (fun c => c / mins.sum)

/-- `d = df_reasons.sort_values("downtime_min", ascending=False)` inside
`make_pareto`. -/
def paretoSorted (reasons : List (String × ℚ)) : List (String × ℚ) :=
  sortDescBy Prod.snd reasons

/-- The cumulative-fraction sequence computed by `make_pareto`, in the
descending-by-minutes row order. -/
def paretoCum (reasons : List (String × ℚ)) : List ℚ :=
  cumFracs ((paretoSorted reasons).map Prod.snd)

def noDataMsg : String := "Tidak ada data untuk filter yang dipilih."

def noReasonsMsg : String := "Tidak ada downtime reasons di filter ini."

/-- What the body of `main` renders after the filters are applied. -/
structure Page where
  total_downtime : ℚ
  avg_downtime_rate : ℚ
  avg_run_ratio : ℚ
  total_batches : Nat
  daily : List DailyRow
  paretoInfo : Option String
  pareto : Option (List ℚ)
  worst : List WorstRow
deriving DecidableEq

/-- Outcome of the post-filter part of `main`: either `st.warning` + `st.stop`
with no downstream aggregation, or a fully rendered page. -/
inductive RenderResult where
  | warningStop : String → RenderResult
  | page : Page → RenderResult
deriving DecidableEq

/-- Lines 146-216 of `app.py`: the empty-filter guard, the KPI cards, the daily
trend charts, the Pareto panel (suppressed with an `st.info` message when the
Reason Aggregate is empty) and the worst-batches table. -/
def renderBody (hasRR : Bool) (dff : List BatchRow) (dtf : List JoinedRow) :
    RenderResult :=
  if dff.isEmpty then .warningStop noDataMsg
  else
    let reasons := reasonAgg dtf
    .page ⟨total_downtime dff, avg_downtime_rate dff, avg_run_ratio hasRR dff,
           total_batches dff, dailyRollup dff,
           if reasons.isEmpty then some noReasonsMsg else none,
           if reasons.isEmpty then none else some (paretoCum reasons),
           worstBatches dff⟩

/-! Helper lemmas about `cumsum`, sorting and grouping. -/

lemma cumsum_le_of_mem (xs : List ℚ) :
    ∀ (acc y : ℚ), (∀ x ∈ xs, 0 ≤ x) → y ∈ cumsum acc xs → acc ≤ y := by
  induction xs with
  | nil => intro acc y _ hy; simp [cumsum] at hy
  | cons x xs ih =>
    intro acc y hnn hy
    have hx : 0 ≤ x := hnn x (by simp)
    simp only [cumsum, List.mem_cons] at hy
    rcases hy with rfl | hy
    · linarith
    · have h2 := ih (acc + x) y (fun z hz => hnn z (List.mem_cons_of_mem x hz)) hy
      linarith

lemma sorted_cumsum (xs : List ℚ) :
    ∀ acc, (∀ x ∈ xs, 0 ≤ x) → List.Sorted (fun a b : ℚ => a ≤ b) (cumsum acc xs) := by
  induction xs with
  | nil => intro acc _; simp [cumsum]
  | cons x xs ih =>
    intro acc hnn
    have hrest : ∀ z ∈ xs, 0 ≤ z := fun z hz => hnn z (List.mem_cons_of_mem x hz)
    simp only [cumsum, List.sorted_cons]
    exact ⟨fun y hy => cumsum_le_of_mem xs (acc + x) y hrest hy, ih (acc + x) hrest⟩

lemma cumsum_getLast (xs : List ℚ) :
    ∀ acc, xs ≠ [] → (cumsum acc xs).getLast? = some (acc + xs.sum) := by
  induction xs with
  | nil => intro acc h; exact absurd rfl h
  | cons x xs ih =>
    intro acc _
    cases xs with
    | nil => simp [cumsum]
    | cons y ys =>
      have hstep : cumsum acc (x :: y :: ys) =
          (acc + x) :: cumsum (acc + x) (y :: ys) := rfl
      have hcons : ∃ t, cumsum (acc + x) (y :: ys) = (acc + x + y) :: t := ⟨_, rfl⟩
      obtain ⟨t, ht⟩ := hcons
      rw [hstep, ht, List.getLast?_cons_cons, ← ht, ih (acc + x) (by simp)]
      simp [List.sum_cons]
      ring

lemma sorted_const_zero (l : List ℚ) :
    List.Sorted (fun a b : ℚ => a ≤ b) (l.map (fun _ => (0 : ℚ))) := by
  induction l with
  | nil => simp
  | cons x xs ih => simpa [List.sorted_cons] using ih

lemma paretoSorted_perm (reasons : List (String × ℚ)) :
    (paretoSorted reasons).Perm reasons :=
  List.perm_insertionSort _ _

lemma paretoMins_sum (reasons : List (String × ℚ)) :
    ((paretoSorted reasons).map Prod.snd).sum = (reasons.map Prod.snd).sum :=
  ((paretoSorted_perm reasons).map Prod.snd).sum_eq

lemma cumFracs_of_sum_zero {mins : List ℚ} (h : mins.sum = 0) :
    cumFracs mins = mins.map (fun _ => (0 : ℚ)) := by
  simp [cumFracs, h]

lemma cumFracs_of_sum_ne {mins : List ℚ} (h : mins.sum ≠ 0) :
    cumFracs mins = (cumsum 0 mins).map (fun c => c / mins.sum) := by
  simp [cumFracs, h]

def c1NegInput : List (String × ℚ) := [("A", 2), ("B", -1)]

/-- C1 counterexample: with a negative summed-minutes entry the cumulative
fraction sequence of the Pareto builder is not monotonically non-decreasing
(`make_pareto` on minutes `[2, -1]` yields `cum_pct = [2, 1]`), so the claim as
stated fails. -/
theorem c1_counterexample :
    ¬ List.Sorted (fun a b : ℚ => a ≤ b) (paretoCum c1NegInput) := by
  norm_num [paretoCum, paretoSorted, sortDescBy, List.insertionSort, List.orderedInsert,
    descRel, cumFracs, cumsum, c1NegInput, List.sorted_cons]

/-- C1 (amended: the Reason Aggregate's summed minutes must be nonnegative,
otherwise monotonicity fails): for every Reason Aggregate of nonnegative
summed minutes, the cumulative fraction sequence computed by `make_pareto` is
monotonically non-decreasing in the descending-by-minutes order, its final
value equals `1` whenever the total of downtime minutes is positive, and it is
`0` for every row when the total is zero. -/
theorem c1_pareto_cum (reasons : List (String × ℚ))
    (hnn : ∀ x ∈ reasons, 0 ≤ x.2) :
    List.Sorted (fun a b : ℚ => a ≤ b) (paretoCum reasons) ∧
    (0 < (reasons.map Prod.snd).sum → (paretoCum reasons).getLast? = some 1) ∧
    ((reasons.map Prod.snd).sum = 0 → ∀ c ∈ paretoCum reasons, c = 0) := by
  have hnn' : ∀ x ∈ (paretoSorted reasons).map Prod.snd, 0 ≤ x := by
    intro x hx
    rw [List.mem_map] at hx
    obtain ⟨p, hp, rfl⟩ := hx
    exact hnn p ((paretoSorted_perm reasons).mem_iff.1 hp)
  have hsum := paretoMins_sum reasons
  rcases eq_or_ne ((paretoSorted reasons).map Prod.snd).sum 0 with hz | hz
  · have h0 : paretoCum reasons =
        ((paretoSorted reasons).map Prod.snd).map (fun _ => (0 : ℚ)) :=
      cumFracs_of_sum_zero hz
    refine ⟨?_, ?_, ?_⟩
    · rw [h0]; exact sorted_const_zero _
    · intro hpos; rw [← hsum] at hpos; exact absurd hz (ne_of_gt hpos)
    · intro _ c hc
      rw [h0] at hc
      rcases List.mem_map.1 hc with ⟨a, -, h⟩
      exact h.symm
  · have hpos : 0 < ((paretoSorted reasons).map Prod.snd).sum :=
      lt_of_le_of_ne (List.sum_nonneg hnn') (Ne.symm hz)
    have hne : (paretoSorted reasons).map Prod.snd ≠ [] := by
      intro h; rw [h] at hz; exact hz rfl
    have h0 : paretoCum reasons =
        (cumsum 0 ((paretoSorted reasons).map Prod.snd)).map
          (fun c => c / ((paretoSorted reasons).map Prod.snd).sum) :=
      cumFracs_of_sum_ne hz
    refine ⟨?_, ?_, ?_⟩
    · rw [h0]
      refine List.pairwise_map.2 ((sorted_cumsum _ 0 hnn').imp ?_)
      intro a b hab
      exact div_le_div_of_nonneg_right hab (le_of_lt hpos)
    · intro _
      rw [h0, List.getLast?_map, cumsum_getLast _ 0 hne]
      simp [div_self hz]
    · intro hz0; exact absurd (hsum.trans hz0) hz

def c1ScenarioInput : List (String × ℚ) := [("Jam", 60), ("Changeover", 40)]

/-- C1 witness: on the spec's scenario aggregate (`Jam: 60`, `Changeover: 40`)
the hypotheses hold and the cumulative fractions are `[0.6, 1.0]`. -/
theorem c1_pareto_cum_witness :
    List.Sorted (fun a b : ℚ => a ≤ b) (paretoCum c1ScenarioInput) ∧
    (paretoCum c1ScenarioInput).getLast? = some 1 ∧
    paretoCum c1ScenarioInput = [3 / 5, 1] :=
  ⟨(c1_pareto_cum c1ScenarioInput (by norm_num [c1ScenarioInput])).1,
   (c1_pareto_cum c1ScenarioInput (by norm_num [c1ScenarioInput])).2.1
     (by norm_num [c1ScenarioInput]),
   by norm_num [paretoCum, paretoSorted, sortDescBy, List.insertionSort,
     List.orderedInsert, descRel, cumFracs, cumsum, c1ScenarioInput]⟩

lemma beq_decide_opt (a b : Option String) : (a == b) = decide (a = b) := by
  cases h : decide (a = b) <;> simp_all

lemma batchMask_eq_spec (sd ed : Int) (selP selO : String) (r : BatchRow) :
    batchMask sd ed selP selO r = decide (specPredBatch sd ed selP selO r) := by
  by_cases hp : selP = allSentinel <;> by_cases ho : selO = allSentinel <;>
    cases hd : r.date <;>
      simp [batchMask, specPredBatch, specDate, specSel, dateInRange, hp, ho, hd,
        decide_eq_true_eq, and_assoc, Bool.and_assoc, beq_decide_opt]

lemma joinedMask_eq_spec (sd ed : Int) (selP selO : String) (j : JoinedRow) :
    joinedMask sd ed selP selO j = decide (specPredJoined sd ed selP selO j) := by
  by_cases hp : selP = allSentinel <;> by_cases ho : selO = allSentinel <;>
    cases hd : j.date <;>
      simp [joinedMask, specPredJoined, specDate, specSel, dateInRange, hp, ho, hd,
        decide_eq_true_eq, and_assoc, Bool.and_assoc, beq_decide_opt]

/-- C2: for every batch table and joined downtime view and every selection, the
filtered subset of each table is exactly the rows satisfying the spec's
predicate `date ∈ [start, end] ∧ (product = selected ∨ selected = All) ∧
(operator = selected ∨ selected = All)`. -/
theorem c2_filter_is_spec (df : List BatchRow) (dtj : List JoinedRow) (sd ed : Int)
    (selP selO : String) :
    filterBatch df sd ed selP selO
        = df.filter (fun r => decide (specPredBatch sd ed selP selO r)) ∧
    filterJoined dtj sd ed selP selO
        = dtj.filter (fun j => decide (specPredJoined sd ed selP selO j)) :=
  ⟨List.filter_congr (fun r _ => batchMask_eq_spec sd ed selP selO r),
   List.filter_congr (fun j _ => joinedMask_eq_spec sd ed selP selO j)⟩

def c3Dated : BatchRow := ⟨some 0, some 1, some "P", some "O", 0, 0, 30, 0, 0⟩

def c3Null : BatchRow := ⟨none, some 2, some "P", some "O", 0, 0, 10, 0, 0⟩

/-- C3 counterexample: a loaded batch table may contain a row whose `Date`
failed to parse (null).  Here the observed minimum and maximum dates are both
`0`, yet filtering by `[0, 0]` with All/All drops the null-dated row, so the
filtered subset is not the unfiltered table. -/
theorem c3_counterexample :
    ([c3Dated, c3Null].filterMap BatchRow.date).minimum = ((0 : Int) : WithTop Int) ∧
    ([c3Dated, c3Null].filterMap BatchRow.date).maximum = ((0 : Int) : WithBot Int) ∧
    filterBatch [c3Dated, c3Null] 0 0 allSentinel allSentinel ≠ [c3Dated, c3Null] := by
  refine ⟨?_, ?_, ?_⟩
  · simp [c3Dated, c3Null, List.filterMap, List.minimum]; rfl
  · simp [c3Dated, c3Null, List.filterMap, List.maximum]; rfl
  · simp [filterBatch, batchMask, dateInRange, c3Dated, c3Null, List.filter]

/-- C3 (amended: rows whose date is null are excluded by any date filter, so
equality holds exactly on the non-null-dated rows): filtering by the full
observed date range with All/All selections yields the subset of rows having a
non-null date — hence the whole table when every date is non-null. -/
theorem c3_full_range (df : List BatchRow) (mn mx : Int)
    (hmn : (df.filterMap BatchRow.date).minimum = ((mn : Int) : WithTop Int))
    (hmx : (df.filterMap BatchRow.date).maximum = ((mx : Int) : WithBot Int)) :
    filterBatch df mn mx allSentinel allSentinel
        = df.filter (fun r => r.date.isSome) ∧
    ((∀ r ∈ df, r.date.isSome) → filterBatch df mn mx allSentinel allSentinel = df) := by
  have key : ∀ r ∈ df, batchMask mn mx allSentinel allSentinel r = r.date.isSome := by
    intro r hr
    cases hd : r.date with
    | none => simp [batchMask, dateInRange, hd]
    | some d =>
      have hdm : d ∈ df.filterMap BatchRow.date := List.mem_filterMap.2 ⟨r, hr, hd⟩
      have h1 := List.minimum_le_of_mem' hdm
      rw [hmn] at h1
      have h2 := List.le_maximum_of_mem' hdm
      rw [hmx] at h2
      simp [batchMask, dateInRange, hd, WithTop.coe_le_coe.1 h1, WithBot.coe_le_coe.1 h2]
  have h1 : filterBatch df mn mx allSentinel allSentinel
      = df.filter (fun r => r.date.isSome) := List.filter_congr key
  exact ⟨h1, fun hall => h1.trans (List.filter_eq_self.2 (fun r hr => hall r hr))⟩

def c3AllDated : List BatchRow :=
  [⟨some 0, some 1, some "P", some "O", 0, 0, 30, 0, 0⟩,
   ⟨some 2, some 2, some "P", some "O", 0, 0, 10, 0, 0⟩]

/-- C3 witness: on a fully dated table, full-range All/All filtering returns
the table unchanged. -/
theorem c3_full_range_witness :
    filterBatch c3AllDated 0 2 allSentinel allSentinel = c3AllDated :=
  (c3_full_range c3AllDated 0 2 (by decide) (by decide)).2 (by simp [c3AllDated])

def c4df : List BatchRow :=
  [⟨some 0, some 1, some "P", some "O", 0, 0, 30, 1 / 10, 0⟩,
   ⟨some 0, some 2, some "P", some "O", 0, 0, 10, 1 / 5, 0⟩]

/-- C4: on every non-empty filtered Batch Record set the four KPI scalars are
the column sum of total downtime, the arithmetic mean of the downtime rate, the
mean of the run-ratio column (or, absent that column, of per-row
actual-run ÷ duration), and the number of distinct non-null batch identifiers;
on the spec's two-row scenario filtered to its single day they evaluate to
total `40`, average rate `0.15` and batch count `2`. -/
theorem c4_kpis :
    (∀ dff : List BatchRow, dff ≠ [] →
      total_downtime dff = (dff.map (fun r => r.downtime_total_min)).sum ∧
      avg_downtime_rate dff = (dff.map (fun r => r.downtime_rate)).sum / dff.length ∧
      avg_run_ratio true dff = (dff.map (fun r => r.run_ratio)).sum / dff.length ∧
      avg_run_ratio false dff
          = (dff.map (fun r => r.actual_run_min / r.duration_min)).sum / dff.length ∧
      total_batches dff = (dff.filterMap (fun r => r.batch)).toFinset.card) ∧
    total_downtime (filterBatch c4df 0 0 allSentinel allSentinel) = 40 ∧
    avg_downtime_rate (filterBatch c4df 0 0 allSentinel allSentinel) = 3 / 20 ∧
    total_batches (filterBatch c4df 0 0 allSentinel allSentinel) = 2 := by
  refine ⟨fun dff _ => ⟨rfl, ?_, ?_, ?_, ?_⟩, ?_, ?_, ?_⟩
  · simp [avg_downtime_rate, listMean]
  · simp [avg_run_ratio, listMean]
  · simp [avg_run_ratio, listMean]
  · simp [total_batches, List.card_toFinset]
  · norm_num [c4df, filterBatch, batchMask, dateInRange, List.filter, total_downtime]
  · norm_num [c4df, filterBatch, batchMask, dateInRange, List.filter, avg_downtime_rate,
      listMean]
  · norm_num [c4df, filterBatch, batchMask, dateInRange, List.filter, total_batches,
      List.filterMap, List.dedup]

/-- C4 witness: the non-emptiness hypothesis holds on the scenario table, and
the universally quantified part applies to it. -/
theorem c4_kpis_witness :
    c4df ≠ [] ∧
    total_downtime c4df = (c4df.map (fun r => r.downtime_total_min)).sum ∧
    avg_downtime_rate c4df = (c4df.map (fun r => r.downtime_rate)).sum / c4df.length :=
  ⟨by simp [c4df], (c4_kpis.1 c4df (by simp [c4df])).1, (c4_kpis.1 c4df (by simp [c4df])).2.1⟩

lemma grouped_keys_map (l : List JoinedRow) : (grouped l).map Prod.fst = groupKeys l := by
  simp only [grouped, List.map_map]
  exact List.map_id _

/-- C5: the Reason Aggregate has pairwise-distinct descriptions each present in
the filtered view, each row carries the summed downtime minutes of its
description, the rows are sorted descending by summed minutes, the length is at
most 12, and (whenever at most 12 distinct descriptions occur) every distinct
description of the view gets a row. -/
theorem c5_reason_agg (l : List JoinedRow) :
    ((reasonAgg l).map Prod.fst).Nodup ∧
    (∀ p ∈ reasonAgg l, p.1 ∈ l.map (fun r => r.description) ∧ p.2 = sumFor l p.1) ∧
    List.Sorted (descRel Prod.snd) (reasonAgg l) ∧
    (reasonAgg l).length ≤ 12 ∧
    ((groupKeys l).length ≤ 12 →
      ∀ d ∈ l.map (fun r => r.description), ∃ p ∈ reasonAgg l, p.1 = d) := by
  have hperm : (sortDescBy Prod.snd (grouped l)).Perm (grouped l) :=
    List.perm_insertionSort _ _
  have hsub : (reasonAgg l).Sublist (sortDescBy Prod.snd (grouped l)) :=
    List.take_sublist _ _
  refine ⟨?_, ?_, ?_, ?_, ?_⟩
  · have h1 : ((sortDescBy Prod.snd (grouped l)).map Prod.fst).Nodup :=
      ((hperm.map Prod.fst).nodup_iff).2
        (by rw [grouped_keys_map]; exact List.nodup_dedup _)
    exact List.Nodup.sublist (hsub.map Prod.fst) h1
  · intro p hp
    have hp2 : p ∈ grouped l := hperm.mem_iff.1 (hsub.subset hp)
    rcases List.mem_map.1 hp2 with ⟨k, hk, hpk⟩
    cases hpk
    exact ⟨List.mem_dedup.1 hk, rfl⟩
  · exact List.Pairwise.sublist hsub (List.sorted_insertionSort _ _)
  · exact List.length_take_le _ _
  · intro hle d hd
    have hlen : (sortDescBy Prod.snd (grouped l)).length ≤ 12 := by
      rw [hperm.length_eq]
      simpa [grouped] using hle
    have htake : reasonAgg l = sortDescBy Prod.snd (grouped l) :=
      List.take_of_length_le hlen
    refine ⟨(d, sumFor l d), ?_, rfl⟩
    rw [htake]
    exact hperm.mem_iff.2 (List.mem_map.2 ⟨d, List.mem_dedup.2 hd, rfl⟩)

def c5Input : List JoinedRow :=
  [⟨some 1, "Jam", 40, some 0, some "P", some "O"⟩,
   ⟨some 1, "Mix", 60, some 0, some "P", some "O"⟩,
   ⟨some 2, "Jam", 20, some 0, some "P", some "O"⟩]

/-- C5 witness: on a concrete three-event view with two distinct descriptions,
the aggregate is within the length bound and covers the description `Jam`. -/
theorem c5_reason_agg_witness :
    (reasonAgg c5Input).length ≤ 12 ∧ ∃ p ∈ reasonAgg c5Input, p.1 = "Jam" :=
  ⟨(c5_reason_agg c5Input).2.2.2.1,
   (c5_reason_agg c5Input).2.2.2.2 (by decide) "Jam" (by decide)⟩

/-- C6: for every non-empty filtered Batch Record set, the Worst Batches output
is sorted descending by total downtime, has at most 15 rows (exactly
`min 15 n` of them), and each row is the fixed-column projection of a filtered
row. -/
theorem c6_worst (dff : List BatchRow) (_hne : dff ≠ []) :
    List.Sorted (descRel WorstRow.downtime_total_min) (worstBatches dff) ∧
    (worstBatches dff).length ≤ 15 ∧
    (∀ w ∈ worstBatches dff, ∃ r ∈ dff, projectWorst r = w) ∧
    (worstBatches dff).length = min 15 dff.length := by
  have hperm : (sortDescBy (fun r => r.downtime_total_min) dff).Perm dff :=
    List.perm_insertionSort _ _
  refine ⟨?_, ?_, ?_, ?_⟩
  · have hs : List.Sorted (descRel (fun r : BatchRow => r.downtime_total_min))
        (sortDescBy (fun r => r.downtime_total_min) dff) :=
      List.sorted_insertionSort _ _
    have hmap := List.pairwise_map.2
      (hs.imp (fun {a b} hab => (hab : descRel WorstRow.downtime_total_min
        (projectWorst a) (projectWorst b))))
    exact List.Pairwise.sublist (List.take_sublist _ _) hmap
  · exact List.length_take_le _ _
  · intro w hw
    have hw2 := List.take_subset _ _ hw
    rcases List.mem_map.1 hw2 with ⟨r, hr, hrw⟩
    exact ⟨r, hperm.mem_iff.1 hr, hrw⟩
  · simp [worstBatches, List.length_take, hperm.length_eq]

def c6df : List BatchRow :=
  [⟨some 0, some 1, some "P", some "O", 0, 0, 10, 0, 0⟩,
   ⟨some 0, some 2, some "P", some "O", 0, 0, 30, 0, 0⟩]

/-- C6 witness: the hypotheses hold on a concrete two-row table. -/
theorem c6_worst_witness :
    (worstBatches c6df).length ≤ 15 ∧ (worstBatches c6df).length = min 15 c6df.length :=
  ⟨(c6_worst c6df (by simp [c6df])).2.1, (c6_worst c6df (by simp [c6df])).2.2.2⟩

/-- C7: when either parquet file is absent, `load_data` fails with the
FileNotFound error class, `main` catches it and halts the interaction
gracefully (`st.error` + `st.stop`, no crash: `mainLoad` is a total function
returning a `halted` outcome), and the displayed message names both expected
files rather than showing a stack trace. -/
theorem c7_missing_file (fs : FS) (h : fs.batches = none ∨ fs.downtime = none) :
    load_data fs = .error .fileNotFound ∧
    mainLoad fs = .halted errNotFoundMsg ∧
    ("- " ++ batchesFile) ∈ errLines ∧
    ("- " ++ downtimeFile) ∈ errLines := by
  have hl : load_data fs = .error .fileNotFound := by
    rcases h with h | h
    · simp [load_data, h]
    · cases hb : fs.batches <;> simp [load_data, h, hb]
  exact ⟨hl, by simp [mainLoad, hl], by decide, by decide⟩

/-- C7 witness: with both files absent, loading halts with the message. -/
theorem c7_missing_file_witness :
    mainLoad ⟨none, none⟩ = .halted errNotFoundMsg ∧ ("- " ++ batchesFile) ∈ errLines :=
  ⟨(c7_missing_file ⟨none, none⟩ (Or.inl rfl)).2.1,
   (c7_missing_file ⟨none, none⟩ (Or.inl rfl)).2.2.1⟩

/-- C8: an empty filtered Batch Record set yields the warning-and-stop outcome
with no downstream aggregation at all, while a non-empty Batch Record set with
an empty Reason Aggregate still renders the KPIs, the daily trend rollup and
the worst-batches table, shows only the informational message, and suppresses
only the Pareto panel. -/
theorem c8_empty_asymmetry (hasRR : Bool) (dff : List BatchRow) (dtf : List JoinedRow) :
    (dff = [] → renderBody hasRR dff dtf = .warningStop noDataMsg) ∧
    (dff ≠ [] → reasonAgg dtf = [] →
      renderBody hasRR dff dtf =
        .page ⟨total_downtime dff, avg_downtime_rate dff, avg_run_ratio hasRR dff,
               total_batches dff, dailyRollup dff, some noReasonsMsg, none,
               worstBatches dff⟩) := by
  constructor
  · intro h; simp [renderBody, h]
  · intro h hr; simp [renderBody, h, hr]

def c8Row : BatchRow := ⟨some 0, some 1, some "P", some "O", 0, 0, 5, 0, 0⟩

/-- C8 witness: both branches instantiated concretely (empty batch set; one
batch with no downtime events). -/
theorem c8_empty_asymmetry_witness :
    renderBody false [] [] = .warningStop noDataMsg ∧
    renderBody false [c8Row] [] =
      .page ⟨total_downtime [c8Row], avg_downtime_rate [c8Row], avg_run_ratio false [c8Row],
             total_batches [c8Row], dailyRollup [c8Row], some noReasonsMsg, none,
             worstBatches [c8Row]⟩ :=
  ⟨(c8_empty_asymmetry false [] []).1 rfl,
   (c8_empty_asymmetry false [c8Row] []).2 (by simp) rfl⟩

/-- C9: the root locator walks upward from the starting directory until the
filesystem root is reached (the loop guard `root != root.parent` stops at the
root without examining it) and returns the first visited ancestor — starting
from the working directory itself — containing a processed- or raw-data
folder, or the original working directory when none matches; it is a total
function, so no error is raised. -/
theorem c9_root_locator (fs : List String → String → Bool) (cwd : List String) :
    find_project_root fs cwd = find_project_root_spec fs cwd := by
  suffices h : ∀ p, findRootGo fs cwd p
      = ((ancestorsBelowRoot p).find? (fun q => hasDataDir fs q)).getD cwd by
    exact h cwd
  intro p
  induction p with
  | nil => simp [findRootGo, ancestorsBelowRoot]
  | cons c rest ih =>
    by_cases hc : hasDataDir fs (c :: rest)
    · simp [findRootGo, ancestorsBelowRoot, List.find?, hc]
    · simp [findRootGo, ancestorsBelowRoot, List.find?, hc, ih]

lemma batchMask_date_isSome {sd ed : Int} {selP selO : String} {r : BatchRow}
    (h : batchMask sd ed selP selO r = true) : r.date.isSome := by
  cases hd : r.date with
  | none => simp [batchMask, dateInRange, hd] at h
  | some d => simp [hd]

lemma joinedMask_date_isSome {sd ed : Int} {selP selO : String} {j : JoinedRow}
    (h : joinedMask sd ed selP selO j = true) : j.date.isSome := by
  cases hd : j.date with
  | none => simp [joinedMask, dateInRange, hd] at h
  | some d => simp [hd]

/-- C10: rows with a null date — batch rows whose date failed to parse, and
joined downtime rows left dateless by the join (in particular every event whose
batch identifier matches no batch record) — are excluded from both filtered
views under every selection; deleting them beforehand leaves the filtered views
(and hence every KPI, rollup, Reason Aggregate and worst-batches output, all
computed from those views alone) unchanged. -/
theorem c10_null_dates (df : List BatchRow) (dt : List DtRow) (sd ed : Int)
    (selP selO : String) :
    (∀ r ∈ filterBatch df sd ed selP selO, r.date.isSome) ∧
    (∀ j ∈ filterJoined (dtJoin dt df) sd ed selP selO, j.date.isSome) ∧
    filterBatch df sd ed selP selO
        = filterBatch (df.filter (fun r => r.date.isSome)) sd ed selP selO ∧
    filterJoined (dtJoin dt df) sd ed selP selO
        = filterJoined ((dtJoin dt df).filter (fun j => j.date.isSome)) sd ed selP selO ∧
    (∀ e ∈ dt, (∀ b ∈ df, b.batch ≠ e.batch) → ∀ j ∈ joinRows df e, j.date = none) := by
  refine ⟨?_, ?_, ?_, ?_, ?_⟩
  · intro r hr
    exact batchMask_date_isSome (List.mem_filter.1 hr).2
  · intro j hj
    exact joinedMask_date_isSome (List.mem_filter.1 hj).2
  · rw [show filterBatch (df.filter (fun r => r.date.isSome)) sd ed selP selO
        = (df.filter (fun r => r.date.isSome)).filter (batchMask sd ed selP selO)
        from rfl, List.filter_filter]
    refine List.filter_congr ?_
    intro r _
    cases hm : batchMask sd ed selP selO r with
    | false => simp [hm]
    | true => simp [hm, batchMask_date_isSome hm]
  · rw [show filterJoined ((dtJoin dt df).filter (fun j => j.date.isSome)) sd ed selP selO
        = ((dtJoin dt df).filter (fun j => j.date.isSome)).filter (joinedMask sd ed selP selO)
        from rfl, List.filter_filter]
    refine List.filter_congr ?_
    intro j _
    cases hm : joinedMask sd ed selP selO j with
    | false => simp [hm]
    | true => simp [hm, joinedMask_date_isSome hm]
  · intro e _ hnomatch j hj
    have hms : df.filter (fun b => b.batch == e.batch) = [] :=
      List.filter_eq_nil_iff.2 (fun b hb => by simp [hnomatch b hb])
    simp only [joinRows, hms, List.isEmpty_nil, if_pos, List.mem_singleton] at hj
    rw [hj]

def c10Batch : BatchRow := ⟨some 0, some 5, some "P", some "O", 0, 0, 0, 0, 0⟩

def c10Event : DtRow := ⟨some 9, "Jam", 10⟩

/-- C10 witness: a downtime event whose batch identifier matches no batch
record joins to a null date, and pre-deleting null-dated rows leaves the
filtered batch view unchanged. -/
theorem c10_null_dates_witness :
    (∀ j ∈ joinRows [c10Batch] c10Event, j.date = none) ∧
    filterBatch [c10Batch] 0 0 allSentinel allSentinel
        = filterBatch ([c10Batch].filter (fun r => r.date.isSome)) 0 0
            allSentinel allSentinel :=
  ⟨(c10_null_dates [c10Batch] [c10Event] 0 0 allSentinel allSentinel).2.2.2.2
      c10Event (by simp) (by simp [c10Batch, c10Event]),
   (c10_null_dates [c10Batch] [c10Event] 0 0 allSentinel allSentinel).2.2.1⟩
